import Mathlib

/-!
Verification of the Unity Module Registry Manager
(`unity_module_registry_manager.py`) against its natural-language
specification.

The embedding models:
 - YAML scalar/collection values (`YVal`) as produced by `yaml.safe_load`
   (null, bool, int, str, sequence, mapping with string keys; mappings in
   the documents at hand have distinct keys, so an association list with
   first-match lookup is used);
 - Python dynamic attribute/type errors that arise when the code calls
   `.get`, iterates, or string-tests a value of the wrong shape (`PyErr`);
 - `datetime` values abstractly as naturals, with `isoformat` /
   `fromisoformat` modelled as an injective string codec that fails on
   strings outside its range (mirroring `ValueError` on malformed input
   and `TypeError` on non-string input);
 - the module record both at the dataclass's declared field types
   (`UnityModule`) and at the dynamic level actually stored by the
   loading/scanning code (`PyModule`, every field a `YVal`).
-/

namespace UnityRegistry

/-- YAML values as returned by `yaml.safe_load` (floats and YAML-native
timestamps are not needed by any claim and are omitted). -/
inductive YVal where
  | null : YVal
  | bool : Bool → YVal
  | int : Int → YVal
  | str : String → YVal
  | list : List YVal → YVal
  | map : List (String × YVal) → YVal

/-- Python truthiness of a value (`if data:`): `None`, `False`, `0`, empty
string/sequence/mapping are falsy. -/
def pyTruthy : YVal → Bool
  | .null => false
  | .bool b => b
  | .int n => n != 0
  | .str s => !s.data.isEmpty
  | .list xs => !xs.isEmpty
  | .map m => !m.isEmpty

/-- Python exceptions relevant to the claims. `AttributeError` and
`TypeError` are not in the `except` list of `_load_registry` /
`_scan_single_module` and therefore propagate; `ValueError` is caught in
`_load_registry` and raised by `get_modules`. -/
inductive PyErr where
  | attributeError : PyErr
  | typeError : PyErr
  | valueError : String → PyErr
deriving DecidableEq

/-- First-match lookup in a string-keyed mapping (`dict` access). -/
def pyLookup : List (String × YVal) → String → Option YVal
  | [], _ => none
  | (k, v) :: rest, key => if k = key then some v else pyLookup rest key

/-- Embedding of `value.get(key, default)`: succeeds on a mapping, raises
`AttributeError` on every other value (str/list/int/bool/None have no
`.get`). -/
def pyGet (v : YVal) (key : String) (dflt : YVal) : Except PyErr YVal :=
  match v with
  | .map m => .ok ((pyLookup m key).getD dflt)
  | _ => .error .attributeError

/-- Timestamps (`datetime`) modelled abstractly as naturals. -/
abbrev DateTime := Nat

/-- Model of `datetime.isoformat`: an injective, never-empty string
encoding of the timestamp (a marker character followed by the decimal
digits). -/
def isoformat (t : DateTime) : String :=
  String.mk ('D' :: ((Nat.digits 10 t).reverse.map Nat.digitChar))

/-- Decimal value of an ASCII digit character. -/
def charToDigit (c : Char) : Nat := c.toNat - 48

/-- Model of `datetime.fromisoformat`: parses exactly the strings produced
by `isoformat`, returning `none` (Python `ValueError`) on anything else. -/
def fromisoformat (s : String) : Option DateTime :=
  match s.data with
  | 'D' :: ds =>
      if ds.all Char.isDigit then
        some (Nat.ofDigits 10 ((ds.map charToDigit).reverse))
      else none
  | _ => none

theorem digitChar_isDigit {d : Nat} (h : d < 10) :
    (Nat.digitChar d).isDigit = true := by
  interval_cases d <;> decide

theorem charToDigit_digitChar {d : Nat} (h : d < 10) :
    charToDigit (Nat.digitChar d) = d := by
  interval_cases d <;> decide

/-- The timestamp codec round-trips. -/
theorem fromisoformat_isoformat (t : DateTime) :
    fromisoformat (isoformat t) = some t := by
  have hall : ((Nat.digits 10 t).reverse.map Nat.digitChar).all Char.isDigit = true := by
    rw [List.all_eq_true]
    intro c hc
    rcases List.mem_map.mp hc with ⟨d, hd, rfl⟩
    exact digitChar_isDigit (Nat.digits_lt_base (by norm_num) (List.mem_reverse.mp hd))
  have hmap : ((Nat.digits 10 t).reverse.map Nat.digitChar).map charToDigit
      = (Nat.digits 10 t).reverse := by
    rw [List.map_map]
    conv_rhs => rw [← List.map_id ((Nat.digits 10 t).reverse)]
    apply List.map_congr_left
    intro d hd
    exact charToDigit_digitChar (Nat.digits_lt_base (by norm_num) (List.mem_reverse.mp hd))
  simp only [fromisoformat, isoformat, hall, if_true, hmap, List.reverse_reverse,
    Nat.ofDigits_digits]

/-- The `isoformat` output is never the empty string (Python-truthy). -/
theorem pyTruthy_isoformat (t : DateTime) :
    pyTruthy (.str (isoformat t)) = true := by
  simp [pyTruthy, isoformat]

/-- The `UnityModule` dataclass at its declared field types. -/
structure UnityModule where
  name : String
  type : String
  path : String
  has_yaml : Bool
  version : Option String
  description : Option String
  dependencies : List String
  assembly : Option String
deriving DecidableEq

/-- A module record as the dynamically-typed loading code stores it: the
dataclass constructor is called with whatever values `mod_data.get`
returned, so every field holds an arbitrary YAML value. -/
structure PyModule where
  name : YVal
  type : YVal
  path : YVal
  has_yaml : YVal
  version : YVal
  description : YVal
  dependencies : YVal
  assembly : YVal

/-- Serialization of an optional string field (`None` becomes YAML null). -/
def optStrV : Option String → YVal
  | none => .null
  | some s => .str s

/-- The dynamic record corresponding to a well-typed module. -/
def encodeModule (m : UnityModule) : PyModule :=
  ⟨.str m.name, .str m.type, .str m.path, .bool m.has_yaml, optStrV m.version,
   optStrV m.description, .list (m.dependencies.map .str), optStrV m.assembly⟩

/-- A valid in-memory registry: the manager's registry fields at their
declared types. -/
structure Registry where
  registry_version : String
  unity_project_path : Option String
  last_scan : Option DateTime
  modules : List UnityModule

/-- One entry of the `modules` list written by `save_registry`. -/
def moduleToYaml (m : UnityModule) : YVal :=
  .map [("name", .str m.name), ("type", .str m.type), ("path", .str m.path),
        ("has_yaml", .bool m.has_yaml), ("version", optStrV m.version),
        ("description", optStrV m.description),
        ("dependencies", .list (m.dependencies.map .str)),
        ("assembly", optStrV m.assembly)]

/-- The document `save_registry` builds and hands to `yaml.safe_dump`
(`yaml.safe_dump` followed by `yaml.safe_load` is faithful on these
values — strings that resemble other scalars are quoted — so the dump/load
pair is modelled as the identity on `YVal`). -/
def save_registry (r : Registry) : YVal :=
  .map [("version", .str r.registry_version),
        ("project_path", optStrV r.unity_project_path),
        ("last_scan", match r.last_scan with
                      | some t => .str (isoformat t)
                      | none => .null),
        ("modules", .list (r.modules.map moduleToYaml))]

/-- The in-memory registry fields `_load_registry` mutates, at the dynamic
level (`registry_version` receives whatever value the document held). -/
structure LoadState where
  registry_version : YVal
  last_scan : Option DateTime
  modules : List PyModule

/-- Registry state of a freshly constructed manager, before `_load_registry`
has read anything. -/
def freshState : LoadState := ⟨.str "1.0.0", none, []⟩

/-- Result of running `_load_registry` inside `__init__`: either the method
returns (leaving some state) or an uncaught exception escapes the
constructor. -/
inductive LoadOutcome where
  | ok : LoadState → LoadOutcome
  | raised : PyErr → LoadOutcome

/-- The persisted file as `_load_registry` encounters it: `none` means the
file does not exist; the outer `Except` is an I/O failure on open/read
(`OSError`); the inner one is a YAML parse failure (`YAMLError`). -/
abbrev FileInput := Option (Except Unit (Except Unit YVal))

/-- Embedding of `UnityModule(name=mod_data.get("name", ""), ...)`: each `.get` raises
`AttributeError` unless the entry is a mapping. -/
def decodeModule (item : YVal) : Except PyErr PyModule :=
  match item with
  | .map m =>
      .ok ⟨(pyLookup m "name").getD (.str ""), (pyLookup m "type").getD (.str ""),
           (pyLookup m "path").getD (.str ""), (pyLookup m "has_yaml").getD (.bool false),
           (pyLookup m "version").getD .null, (pyLookup m "description").getD .null,
           (pyLookup m "dependencies").getD (.list []), (pyLookup m "assembly").getD .null⟩
  | _ => .error .attributeError

/-- The list comprehension over `data.get("modules", [])`. -/
def decodeModules : List YVal → Except PyErr (List PyModule)
  | [] => .ok []
  | item :: rest =>
      match decodeModule item with
      | .error e => .error e
      | .ok m =>
          match decodeModules rest with
          | .error e => .error e
          | .ok ms => .ok (m :: ms)

/-- Iterating the value of the `modules` key: a sequence iterates its
items; iterating a string or a mapping yields strings, whose `.get` raises
`AttributeError` (vacuously succeeding when empty); `None`, ints and bools
are not iterable (`TypeError`). -/
def loadModulesFrom (ver : YVal) (ls : Option DateTime) (mv : YVal) : LoadOutcome :=
  match mv with
  | .list items =>
      match decodeModules items with
      | .ok pms => .ok ⟨ver, ls, pms⟩
      | .error e => .raised e
  | .str s => if s.data.isEmpty then .ok ⟨ver, ls, []⟩ else .raised .attributeError
  | .map m => if m.isEmpty then .ok ⟨ver, ls, []⟩ else .raised .attributeError
  | _ => .raised .typeError

/-- Body of `_load_registry`'s `try` block after a successful parse,
with the catch clause applied: a malformed timestamp string raises
`ValueError`, which is in the `except` list, so the method returns with
`modules = []` (the version assignment on line 127 has already happened);
`AttributeError`/`TypeError` are not in the list and escape. -/
def loadFromDoc (v : YVal) : LoadOutcome :=
  let data := if pyTruthy v then v else .map []
  match pyGet data "version" (.str "1.0.0") with
  | .error e => .raised e
  | .ok ver =>
      match pyGet data "last_scan" .null with
      | .error e => .raised e
      | .ok lsv =>
          if pyTruthy lsv then
            match lsv with
            | .str s =>
                match fromisoformat s with
                | some dt =>
                    match pyGet data "modules" (.list []) with
                    | .error e => .raised e
                    | .ok mv => loadModulesFrom ver (some dt) mv
                | none => .ok ⟨ver, none, []⟩
            | _ => .raised .typeError
          else
            match pyGet data "modules" (.list []) with
            | .error e => .raised e
            | .ok mv => loadModulesFrom ver none mv

/-- Embedding of `_load_registry` on a fresh manager: a missing file returns early; an
I/O or YAML parse failure is caught (leaving the fresh state with
`modules = []`); otherwise the parsed document is processed. -/
def load_registry (file : FileInput) : LoadOutcome :=
  match file with
  | none => .ok freshState
  | some (.error _) => .ok freshState
  | some (.ok (.error _)) => .ok freshState
  | some (.ok (.ok v)) => loadFromDoc v

theorem decodeModule_moduleToYaml (m : UnityModule) :
    decodeModule (moduleToYaml m) = .ok (encodeModule m) := rfl

theorem decodeModules_map (ms : List UnityModule) :
    decodeModules (ms.map moduleToYaml) = .ok (ms.map encodeModule) := by
  induction ms with
  | nil => rfl
  | cons m rest ih => simp [decodeModules, decodeModule_moduleToYaml, ih]

/-- C1: for every valid in-memory registry (any version string, optional
last_scan, any module list, including empty dependency lists and unset
optional fields), saving the registry and then loading the persisted
document on a fresh manager reproduces the module list, version and
last_scan field-for-field. -/
theorem C1_round_trip (r : Registry) :
    load_registry (some (.ok (.ok (save_registry r)))) =
      .ok ⟨.str r.registry_version, r.last_scan, r.modules.map encodeModule⟩ := by
  cases hls : r.last_scan with
  | none =>
      simp [load_registry, loadFromDoc, save_registry, pyGet, pyLookup, pyTruthy,
        loadModulesFrom, decodeModules_map, hls]
  | some t =>
      have h1 := fromisoformat_isoformat t
      simp only [isoformat, List.map_reverse] at h1
      simp [load_registry, loadFromDoc, save_registry, pyGet, pyLookup, pyTruthy,
        loadModulesFrom, decodeModules_map, hls, isoformat, h1]

/-- Whether a YAML value is a mapping. -/
def isMapB : YVal → Bool
  | .map _ => true
  | _ => false

/-- Values of the `modules` key that the load step survives: a sequence of
mappings, or a trivially empty iterable. -/
def safeModulesVal : YVal → Bool
  | .list items => items.all isMapB
  | .str s => s.data.isEmpty
  | .map m => m.isEmpty
  | _ => false

/-- Values of the `last_scan` key that the load step survives: falsy values
are skipped, strings at worst raise the caught `ValueError`. -/
def safeLastScanVal (v : YVal) : Bool :=
  !pyTruthy v || isMapB v == false && (match v with | .str _ => true | _ => false)

/-- Parsed documents on which `_load_registry`'s `except` list suffices: a
falsy top-level value, or a mapping whose truthy `last_scan` value is a
string and whose `modules` value (when present) is survivable. -/
def loadSafeShape (v : YVal) : Bool :=
  !pyTruthy v ||
  (match v with
   | .map m =>
       safeLastScanVal ((pyLookup m "last_scan").getD .null) &&
       safeModulesVal ((pyLookup m "modules").getD (.list []))
   | _ => false)

theorem decodeModules_ok {items : List YVal} (h : items.all isMapB = true) :
    ∃ pms, decodeModules items = .ok pms := by
  induction items with
  | nil => exact ⟨[], rfl⟩
  | cons item rest ih =>
      rw [List.all_cons, Bool.and_eq_true] at h
      obtain ⟨h1, h2⟩ := h
      obtain ⟨pms, hpms⟩ := ih h2
      cases item with
      | map m =>
          obtain ⟨pm, hpm⟩ : ∃ pm, decodeModule (.map m) = .ok pm := ⟨_, rfl⟩
          exact ⟨pm :: pms, by simp [decodeModules, hpm, hpms]⟩
      | null => simp [isMapB] at h1
      | bool b => simp [isMapB] at h1
      | int n => simp [isMapB] at h1
      | str s => simp [isMapB] at h1
      | list xs => simp [isMapB] at h1

theorem loadModulesFrom_ok (ver : YVal) (ls : Option DateTime) {mv : YVal}
    (h : safeModulesVal mv = true) : ∃ st, loadModulesFrom ver ls mv = .ok st := by
  cases mv with
  | list items =>
      obtain ⟨pms, hpms⟩ := decodeModules_ok (by simpa [safeModulesVal] using h)
      exact ⟨⟨ver, ls, pms⟩, by simp [loadModulesFrom, hpms]⟩
  | str s =>
      refine ⟨⟨ver, ls, []⟩, ?_⟩
      have hs : s.data.isEmpty = true := by simpa [safeModulesVal] using h
      simp [loadModulesFrom, hs]
  | map mm =>
      refine ⟨⟨ver, ls, []⟩, ?_⟩
      have hs : mm.isEmpty = true := by simpa [safeModulesVal] using h
      simp [loadModulesFrom, hs]
  | null => simp [safeModulesVal] at h
  | bool b => simp [safeModulesVal] at h
  | int n => simp [safeModulesVal] at h

/-- Whether the load attempt hits a caught failure: an I/O error on read, a
YAML parse failure, or a truthy `last_scan` string that `fromisoformat`
rejects (the caught `ValueError`). A missing file is not a failure (the
method returns before the `try`). -/
def loadFailureCaught : FileInput → Bool
  | none => false
  | some (.error _) => true
  | some (.ok (.error _)) => true
  | some (.ok (.ok v)) =>
      match v with
      | .map m =>
          (match (pyLookup m "last_scan").getD .null with
           | .str s => !s.data.isEmpty && (fromisoformat s).isNone
           | _ => false)
      | _ => false

/-- C2 (amended): construction never raises from the load step provided the
parsed document, when truthy, is a mapping whose truthy `last_scan` value is
a string and whose `modules` value is a sequence of mappings (or a trivially
empty iterable); missing files, I/O errors, malformed YAML and malformed
timestamp strings are all absorbed, and every such caught failure leaves the
registry with an empty module list and an unset scan timestamp. Truthy
non-mapping documents, truthy non-string `last_scan` values and non-mapping
module entries instead escape as uncaught errors (see the
counterexample). -/
theorem C2_load_never_raises (file : FileInput)
    (h : ∀ v, file = some (.ok (.ok v)) → loadSafeShape v = true) :
    ∃ st, load_registry file = .ok st ∧
      (loadFailureCaught file = true → st.modules = [] ∧ st.last_scan = none) := by
  match file with
  | none => exact ⟨freshState, rfl, fun _ => ⟨rfl, rfl⟩⟩
  | some (.error e) => exact ⟨freshState, rfl, fun _ => ⟨rfl, rfl⟩⟩
  | some (.ok (.error e)) => exact ⟨freshState, rfl, fun _ => ⟨rfl, rfl⟩⟩
  | some (.ok (.ok v)) =>
      have hv := h v rfl
      by_cases ht : pyTruthy v = true
      · cases v with
        | map m =>
            simp only [loadSafeShape, ht, Bool.not_true, Bool.false_or,
              Bool.and_eq_true] at hv
            obtain ⟨hls, hmods⟩ := hv
            simp only [load_registry, loadFromDoc, ht, if_true, pyGet]
            by_cases hlt : pyTruthy ((pyLookup m "last_scan").getD .null) = true
            · cases hlsv : (pyLookup m "last_scan").getD .null with
              | str s =>
                  rw [hlsv] at hlt
                  cases hiso : fromisoformat s with
                  | some dt =>
                      obtain ⟨st, hst⟩ := loadModulesFrom_ok
                        ((pyLookup m "version").getD (.str "1.0.0")) (some dt) hmods
                      refine ⟨st, by simp [hlt, hiso, hst], ?_⟩
                      intro hcf
                      simp [loadFailureCaught, hlsv, hiso] at hcf
                  | none =>
                      exact ⟨⟨(pyLookup m "version").getD (.str "1.0.0"), none, []⟩,
                        by simp [hlt, hiso], fun _ => ⟨rfl, rfl⟩⟩
              | null => rw [hlsv] at hlt; simp [pyTruthy] at hlt
              | bool b =>
                  rw [hlsv] at hlt hls
                  simp [safeLastScanVal, isMapB, hlt] at hls
              | int n =>
                  rw [hlsv] at hlt hls
                  simp [safeLastScanVal, isMapB, hlt] at hls
              | list xs =>
                  rw [hlsv] at hlt hls
                  simp [safeLastScanVal, isMapB, hlt] at hls
              | map mm =>
                  rw [hlsv] at hlt hls
                  simp [safeLastScanVal, isMapB, hlt] at hls
            · rw [Bool.not_eq_true] at hlt
              obtain ⟨st, hst⟩ := loadModulesFrom_ok
                ((pyLookup m "version").getD (.str "1.0.0")) none hmods
              refine ⟨st, by simp [hlt, hst], ?_⟩
              intro hcf
              simp only [loadFailureCaught] at hcf
              cases hlsv : (pyLookup m "last_scan").getD .null with
              | str s =>
                  rw [hlsv] at hcf hlt
                  simp only [pyTruthy, Bool.not_eq_true'] at hlt
                  simp [hlt] at hcf
              | null => rw [hlsv] at hcf; simp at hcf
              | bool b => rw [hlsv] at hcf; simp at hcf
              | int n => rw [hlsv] at hcf; simp at hcf
              | list xs => rw [hlsv] at hcf; simp at hcf
              | map mm => rw [hlsv] at hcf; simp at hcf
        | null => simp [loadSafeShape, ht] at hv
        | bool b => simp [loadSafeShape, ht] at hv
        | int n => simp [loadSafeShape, ht] at hv
        | str s => simp [loadSafeShape, ht] at hv
        | list xs => simp [loadSafeShape, ht] at hv
      · rw [Bool.not_eq_true] at ht
        refine ⟨⟨.str "1.0.0", none, []⟩, ?_, fun _ => ⟨rfl, rfl⟩⟩
        simp only [load_registry, loadFromDoc, ht]
        rfl

/-- C2 counterexample: a persisted document whose top-level value is the
YAML sequence `[1]` parses fine, but `data.get("version", "1.0.0")` is then
called on a list, raising an uncaught `AttributeError` that escapes the
constructor — so load failures are not always caught. -/
theorem C2_counterexample :
    load_registry (some (.ok (.ok (.list [.int 1])))) = .raised .attributeError := rfl

/-- C2 witness: a document with a malformed (but string) timestamp is a
caught failure — construction succeeds and the module list is reset. -/
theorem C2_witness :
    ∃ st, load_registry (some (.ok (.ok (.map [("last_scan", .str "garbage")])))) = .ok st ∧
      (loadFailureCaught (some (.ok (.ok (.map [("last_scan", .str "garbage")])))) = true →
        st.modules = [] ∧ st.last_scan = none) :=
  C2_load_never_raises (some (.ok (.ok (.map [("last_scan", .str "garbage")]))))
    (by intro v hv
        injection hv with h1
        injection h1 with h2
        injection h2 with h3
        rw [← h3]
        rfl)

/-- The `MODULE_TYPE_FOLDERS` constant, an ordered mapping constant (declared order). -/
def MODULE_TYPE_FOLDERS : List (String × String) :=
  [("_Core", "core"), ("_Managers", "manager"), ("_Shared", "shared"),
   ("Features", "feature"), ("Levels", "level"), ("ThirdParty", "thirdparty"),
   ("_Extensions", "extension")]

/-- Embedding of `set(self.MODULE_TYPE_FOLDERS.values())` (membership is all that is
used of it). -/
def validTypes : List String := MODULE_TYPE_FOLDERS.map Prod.snd

/-- Python `sub in s` on strings: substring containment. -/
def pyInStr (sub s : String) : Bool := decide (sub.data <:+: s.data)

/-- Python `s.endswith(t)`. -/
def pyEndsWith (s t : String) : Bool := decide (t.data <:+ s.data)

/-- Python `s.startswith(t)`. -/
def pyStartsWith (s t : String) : Bool := decide (t.data <+: s.data)

/-- Embedding of `get_modules`: validates a truthy type filter against the classifier
set, then filters; `if module_type:` decides filter presence by string
truthiness. -/
def get_modules (modules : List UnityModule) (module_type : Option String) :
    Except PyErr (List UnityModule) :=
  match module_type with
  | some t =>
      if !t.data.isEmpty then
        if validTypes.contains t then .ok (modules.filter fun m => m.type == t)
        else .error (.valueError ("Invalid module type " ++ t))
      else .ok modules
  | none => .ok modules

/-- Inner loop of `find_dependents`: walks the dependency entries, stopping
at the first match (the `break`). -/
def depsMatch (name : String) : List String → Bool
  | [] => false
  | dep :: rest =>
      if pyInStr name dep || pyEndsWith dep ("/" ++ name) then true
      else depsMatch name rest

/-- Embedding of `find_dependents` as the source's nested loop: a module is appended
(once) when some dependency entry contains `name` or ends with `/name`. -/
def find_dependents (modules : List UnityModule) (name : String) :
    List UnityModule :=
  match modules with
  | [] => []
  | m :: rest =>
      if depsMatch name m.dependencies then m :: find_dependents rest name
      else find_dependents rest name

/-- Loop of `_get_orphaned_modules`: keeps a module when it has no
dependencies (`not module.dependencies`) and no dependents
(`len(dependents) == 0`), where dependents are computed against the whole
in-memory list. -/
def orphanLoop (allModules : List UnityModule) : List UnityModule → List UnityModule
  | [] => []
  | m :: rest =>
      if m.dependencies.isEmpty && ((find_dependents allModules m.name).length == 0) then
        m :: orphanLoop allModules rest
      else orphanLoop allModules rest

/-- Embedding of `_get_orphaned_modules` over the in-memory module list. -/
def get_orphaned_modules (modules : List UnityModule) : List UnityModule :=
  orphanLoop modules modules

/-- The character class `[a-zA-Z0-9_]` of `_sanitize_mermaid_id`'s regex. -/
def pyWordChar (c : Char) : Bool := c.isAlpha || c.isDigit || c == '_'

/-- Leading-digit guard of `_sanitize_mermaid_id`:
`if sanitized and sanitized[0].isdigit(): sanitized = f"m_{sanitized}"`. -/
def sanitizeGuard : List Char → List Char
  | [] => []
  | c :: rest => if c.isDigit then 'm' :: '_' :: (c :: rest) else (c :: rest)

/-- Embedding of `_sanitize_mermaid_id` on the character list: replace each character
outside the class with an underscore, guard a leading digit, fall back to
the placeholder `"unknown"` when empty. -/
def sanitizeId (cs : List Char) : List Char :=
  let sanitized := cs.map fun c => if pyWordChar c then c else '_'
  if (sanitizeGuard sanitized).isEmpty then "unknown".data else sanitizeGuard sanitized

/-- Embedding of `_sanitize_mermaid_id`. -/
def sanitize_mermaid_id (name : String) : String := String.mk (sanitizeId name.data)

theorem depsMatch_eq_any (name : String) (deps : List String) :
    depsMatch name deps =
      deps.any fun dep => pyInStr name dep || pyEndsWith dep ("/" ++ name) := by
  induction deps with
  | nil => rfl
  | cons d ds ih =>
      by_cases h : (pyInStr name d || pyEndsWith d ("/" ++ name)) = true
      · simp [depsMatch, h]
      · rw [Bool.not_eq_true] at h
        simp [depsMatch, h, ih]

theorem find_dependents_eq_filter (modules : List UnityModule) (name : String) :
    find_dependents modules name =
      modules.filter fun m =>
        m.dependencies.any fun dep => pyInStr name dep || pyEndsWith dep ("/" ++ name) := by
  induction modules with
  | nil => rfl
  | cons m rest ih =>
      by_cases h : depsMatch name m.dependencies = true
      · rw [find_dependents, if_pos h, ih, List.filter_cons,
          if_pos (by rw [← depsMatch_eq_any]; exact h)]
      · rw [Bool.not_eq_true] at h
        rw [find_dependents, if_neg (by rw [h]; simp), ih, List.filter_cons,
          if_neg (by rw [← depsMatch_eq_any, h]; simp)]

/-- C5: `find_dependents(name)` returns exactly the modules in the
in-memory list having some dependency entry that contains `name` as a
substring or ends with `/` followed by `name`, in stored order. -/
theorem C5_find_dependents (modules : List UnityModule) (name : String) :
    find_dependents modules name =
      modules.filter fun m =>
        m.dependencies.any fun dep => pyInStr name dep || pyEndsWith dep ("/" ++ name) :=
  find_dependents_eq_filter modules name

theorem orphanLoop_mem (allModules : List UnityModule) (l : List UnityModule)
    (m : UnityModule) :
    m ∈ orphanLoop allModules l ↔
      m ∈ l ∧ m.dependencies = [] ∧ find_dependents allModules m.name = [] := by
  induction l with
  | nil => simp [orphanLoop]
  | cons x rest ih =>
      by_cases hx : (x.dependencies.isEmpty &&
          ((find_dependents allModules x.name).length == 0)) = true
      · rw [orphanLoop, if_pos hx]
        rw [Bool.and_eq_true, List.isEmpty_iff, beq_iff_eq, List.length_eq_zero] at hx
        constructor
        · intro hm
          rcases List.mem_cons.mp hm with rfl | hm
          · exact ⟨List.mem_cons_self _ _, hx.1, hx.2⟩
          · obtain ⟨h1, h2, h3⟩ := ih.mp hm
            exact ⟨List.mem_cons_of_mem _ h1, h2, h3⟩
        · intro ⟨h1, h2, h3⟩
          rcases List.mem_cons.mp h1 with rfl | h1
          · exact List.mem_cons_self _ _
          · exact List.mem_cons_of_mem _ (ih.mpr ⟨h1, h2, h3⟩)
      · rw [orphanLoop, if_neg hx]
        rw [Bool.and_eq_true, List.isEmpty_iff, beq_iff_eq, List.length_eq_zero] at hx
        constructor
        · intro hm
          obtain ⟨h1, h2, h3⟩ := ih.mp hm
          exact ⟨List.mem_cons_of_mem _ h1, h2, h3⟩
        · intro ⟨h1, h2, h3⟩
          rcases List.mem_cons.mp h1 with rfl | h1
          · exact absurd ⟨h2, h3⟩ hx
          · exact ih.mpr ⟨h1, h2, h3⟩

/-- C7: a module appears in the orphan list iff it is in the in-memory
list, its dependency sequence is empty, and `find_dependents` of its name
returns no modules; so a module with a dependency or a dependent never
appears. -/
theorem C7_orphans (modules : List UnityModule) (m : UnityModule) :
    m ∈ get_orphaned_modules modules ↔
      m ∈ modules ∧ m.dependencies = [] ∧ find_dependents modules m.name = [] :=
  orphanLoop_mem modules modules m

/-- C9: the empty string as the type filter is falsy, so it bypasses the
validation against the classifier set and returns the full module list. -/
theorem C9_empty_filter (modules : List UnityModule) :
    get_modules modules (some "") = .ok modules := rfl

/-- C6 counterexample: the empty string is not in the classifier's type
set, yet `get_modules("")` does not raise — it returns the module list —
so "every type tag outside the set raises" fails at `""`. -/
theorem C6_counterexample :
    get_modules ([] : List UnityModule) (some "") = .ok [] ∧
      validTypes.contains "" = false :=
  ⟨rfl, rfl⟩

/-- C6 (amended): every NONEMPTY type tag outside the classifier's fixed
set {core, manager, shared, feature, level, thirdparty, extension} raises a
usage error; a tag in the set selects exactly the modules of that type in
stored order; and no filter returns all modules in stored order. (The empty
string is falsy and is treated as "no filter", see C9.) -/
theorem C6_get_modules (modules : List UnityModule) (t : String) :
    (t ≠ "" → validTypes.contains t = false →
      ∃ msg, get_modules modules (some t) = .error (.valueError msg)) ∧
    (validTypes.contains t = true →
      get_modules modules (some t) = .ok (modules.filter fun m => m.type == t)) ∧
    get_modules modules none = .ok modules := by
  refine ⟨?_, ?_, rfl⟩
  · intro hne hval
    have hd : t.data ≠ [] := fun h => hne (by cases t; simp_all)
    refine ⟨"Invalid module type " ++ t, ?_⟩
    rw [get_modules]
    rw [if_pos (by simp [List.isEmpty_iff, hd]), if_neg (by rw [hval]; simp)]
  · intro hval
    have hne : t.data ≠ [] := by
      have hmem : t ∈ validTypes := List.mem_of_elem_eq_true hval
      simp only [validTypes, MODULE_TYPE_FOLDERS, List.map_cons, List.map_nil,
        List.mem_cons, List.not_mem_nil, or_false] at hmem
      rcases hmem with rfl | rfl | rfl | rfl | rfl | rfl | rfl
      all_goals intro h; exact absurd h (by decide)
    rw [get_modules]
    rw [if_pos (by simp [List.isEmpty_iff, hne]), if_pos hval]

/-- C6 witness: `get_modules("bogus_type")` raises the usage error, the
tag `feature` filters, and no filter returns everything. -/
theorem C6_witness :
    ∃ msg, get_modules ([] : List UnityModule) (some "bogus_type") =
      .error (.valueError msg) :=
  (C6_get_modules [] "bogus_type").1 (by decide) rfl

/-- C10: a module enters the dependents list at most once even when
several of its dependency entries match: per-module multiplicity is
bounded by its multiplicity in the input, the length is at most the number
of modules, and a duplicate-free module list yields a duplicate-free
result. -/
theorem C10_dependents_no_dup (modules : List UnityModule) (name : String) :
    (∀ m, (find_dependents modules name).count m ≤ modules.count m) ∧
    (find_dependents modules name).length ≤ modules.length ∧
    (modules.Nodup → (find_dependents modules name).Nodup) := by
  have hsub : (find_dependents modules name).Sublist modules := by
    rw [find_dependents_eq_filter]
    exact List.filter_sublist modules
  exact ⟨fun m => hsub.count_le m, hsub.length_le,
    fun h => List.Nodup.sublist hsub h⟩

/-- C10 witness: a module whose dependency list matches the target twice
still yields a duplicate-free dependents list. -/
theorem C10_witness :
    (find_dependents
      [⟨"A", "feature", "Assets/Features/A", true, none, none,
        ["Combat", "Systems/Combat"], none⟩] "Combat").Nodup :=
  (C10_dependents_no_dup
    [⟨"A", "feature", "Assets/Features/A", true, none, none,
      ["Combat", "Systems/Combat"], none⟩] "Combat").2.2 (by decide)

theorem sanitizeGuard_ok (c : Char) (rest : List Char)
    (hall : ∀ x ∈ c :: rest, pyWordChar x = true) :
    sanitizeGuard (c :: rest) ≠ [] ∧
      (sanitizeGuard (c :: rest)).all pyWordChar = true ∧
      (sanitizeGuard (c :: rest)).headI.isDigit = false := by
  by_cases hd : c.isDigit = true
  · rw [sanitizeGuard, if_pos hd]
    refine ⟨List.cons_ne_nil _ _, ?_, rfl⟩
    rw [List.all_cons, List.all_cons]
    simp only [Bool.and_eq_true]
    exact ⟨by decide, by decide, List.all_eq_true.mpr hall⟩
  · rw [Bool.not_eq_true] at hd
    rw [sanitizeGuard, if_neg (by rw [hd]; exact Bool.false_ne_true)]
    exact ⟨List.cons_ne_nil _ _, List.all_eq_true.mpr hall, hd⟩

theorem sanitizeId_spec (cs : List Char) :
    sanitizeId cs ≠ [] ∧ (sanitizeId cs).all pyWordChar = true ∧
      (sanitizeId cs).headI.isDigit = false := by
  have hall : ∀ x ∈ cs.map (fun c => if pyWordChar c then c else '_'),
      pyWordChar x = true := by
    intro x hx
    rcases List.mem_map.mp hx with ⟨y, hy, rfl⟩
    by_cases h : pyWordChar y = true
    · simp [h]
    · rw [Bool.not_eq_true] at h
      rw [if_neg (by simp [h])]
      decide
  simp only [sanitizeId]
  cases hcs : cs.map (fun c => if pyWordChar c then c else '_') with
  | nil => exact ⟨by decide, by decide, by decide⟩
  | cons c rest =>
      rw [hcs] at hall
      obtain ⟨g1, g2, g3⟩ := sanitizeGuard_ok c rest hall
      rw [if_neg (fun h => g1 (List.isEmpty_iff.mp h))]
      exact ⟨g1, g2, g3⟩

/-- C8: the sanitized Mermaid identifier is always non-empty, consists
only of characters in `[A-Za-z0-9_]`, and never starts with a digit
(every out-of-class character is replaced by an underscore, a leading
digit forces a prefixed form, and the empty result falls back to a
placeholder). -/
theorem C8_sanitize (name : String) :
    sanitize_mermaid_id name ≠ "" ∧
    (sanitize_mermaid_id name).data.all pyWordChar = true ∧
    (sanitize_mermaid_id name).data.headI.isDigit = false := by
  obtain ⟨h1, h2, h3⟩ := sanitizeId_spec name.data
  refine ⟨?_, h2, h3⟩
  intro he
  exact h1 (by simpa [sanitize_mermaid_id] using congrArg String.data he)

/-- A child entry of a type folder as the scan sees it: its name, whether
it is a directory, and its `module.yaml` (`none` = no file; `.error` =
file exists but reading/parsing raises a caught `OSError`/`YAMLError`;
`.ok v` = file parses to `v`). -/
structure ModuleFolderFS where
  name : String
  isDir : Bool
  descriptor : Option (Except Unit YVal)

/-- The filesystem as `scan_modules` probes it: existence of the project
root and of its `Assets` subfolder, and the children of each recognized
type folder (present exactly when the folder exists). -/
structure UnityFS where
  rootExists : Bool
  assetsExists : Bool
  typeFolders : List (String × List ModuleFolderFS)

/-- Manager state touched by `scan_modules`. -/
structure ScanState where
  unity_project_path : Option String
  modules : List PyModule
  last_scan : Option DateTime

/-- Errors escaping `scan_modules`: the domain-specific
`UnityModuleRegistryError` (with its message) from the precondition
checks, or an uncaught dynamic error from a descriptor overlay. -/
inductive ScanErr where
  | registryError : String → ScanErr
  | uncaught : PyErr → ScanErr

/-- Embedding of `_scan_single_module`: build the default record (name = folder name,
classified type, project-relative path, `has_yaml` from file existence),
then overlay the parsed descriptor. A caught read/parse failure keeps the
default record; a descriptor parsing to a truthy non-mapping raises an
uncaught `AttributeError` from `yaml_data.get`. -/
def scan_single_module (folder : ModuleFolderFS) (module_type tfName : String) :
    Except PyErr PyModule :=
  let base : PyModule :=
    ⟨.str folder.name, .str module_type,
     .str ("Assets/" ++ tfName ++ "/" ++ folder.name),
     .bool folder.descriptor.isSome, .null, .null, .list [], .null⟩
  match folder.descriptor with
  | none => .ok base
  | some (.error _) => .ok base
  | some (.ok v) =>
      let d := if pyTruthy v then v else .map []
      match pyGet d "name" .null with
      | .error e => .error e
      | .ok nameV =>
          match pyGet d "version" .null with
          | .error e => .error e
          | .ok verV =>
              match pyGet d "description" .null with
              | .error e => .error e
              | .ok descV =>
                  match pyGet d "dependencies" (.list []) with
                  | .error e => .error e
                  | .ok depsV =>
                      match pyGet d "assembly" .null with
                      | .error e => .error e
                      | .ok asmV =>
                          .ok { base with
                                name := if pyTruthy nameV then nameV else base.name,
                                version := verV, description := descV,
                                dependencies := depsV, assembly := asmV }

/-- Inner loop of `scan_modules` over one type folder's children: skip
non-directories and hidden/backup names, scan the rest in enumeration
order; an uncaught error aborts the loop (the partial list is local and
discarded). -/
def scanChildren (module_type tfName : String) :
    List ModuleFolderFS → Except PyErr (List PyModule)
  | [] => .ok []
  | f :: rest =>
      if !f.isDir then scanChildren module_type tfName rest
      else if pyStartsWith f.name "." || pyStartsWith f.name "~" then
        scanChildren module_type tfName rest
      else
        match scan_single_module f module_type tfName with
        | .error e => .error e
        | .ok m =>
            match scanChildren module_type tfName rest with
            | .error e => .error e
            | .ok ms => .ok (m :: ms)

/-- Outer loop of `scan_modules`: iterate `MODULE_TYPE_FOLDERS` in
declared order, skipping absent folders. -/
def scanTypeFolders (fs : List (String × List ModuleFolderFS)) :
    List (String × String) → Except PyErr (List PyModule)
  | [] => .ok []
  | (folderName, module_type) :: rest =>
      match List.lookup folderName fs with
      | none => scanTypeFolders fs rest
      | some children =>
          match scanChildren module_type folderName children with
          | .error e => .error e
          | .ok ms =>
              match scanTypeFolders fs rest with
              | .error e => .error e
              | .ok more => .ok (ms ++ more)

/-- Embedding of `scan_modules`: the precondition checks raise before any mutation; the
in-memory list and `last_scan` are replaced only after the whole discovery
loop succeeds, so any raise leaves the state untouched. -/
def scan_modules (st : ScanState) (fs : UnityFS) (now : DateTime) :
    Except ScanErr (List PyModule) × ScanState :=
  match st.unity_project_path with
  | none =>
      (.error (.registryError "Unity project path not set or does not exist: None"), st)
  | some p =>
      if !fs.rootExists then
        (.error (.registryError
          ("Unity project path not set or does not exist: " ++ p)), st)
      else if !fs.assetsExists then
        (.error (.registryError
          ("Assets folder not found in Unity project: " ++ p ++ "/Assets")), st)
      else
        match scanTypeFolders fs.typeFolders MODULE_TYPE_FOLDERS with
        | .error e => (.error (.uncaught e), st)
        | .ok mods => (.ok mods, { st with modules := mods, last_scan := some now })

/-- C4: whenever the project root is unset/nonexistent or the `Assets`
subfolder is absent, `scan_modules` raises the domain-specific registry
error whose message identifies the missing path, and the in-memory module
list and `last_scan` are left exactly as they were. -/
theorem C4_scan_preconditions (st : ScanState) (fs : UnityFS) (now : DateTime)
    (h : st.unity_project_path = none ∨ fs.rootExists = false ∨
      fs.assetsExists = false) :
    (∃ msg, (scan_modules st fs now).1 = .error (.registryError msg)) ∧
      (scan_modules st fs now).2 = st := by
  cases hp : st.unity_project_path with
  | none =>
      refine ⟨⟨"Unity project path not set or does not exist: None", ?_⟩, ?_⟩ <;>
        simp [scan_modules, hp]
  | some p =>
      rcases h with h | h | h
      · rw [hp] at h; exact absurd h (by simp)
      · refine ⟨⟨"Unity project path not set or does not exist: " ++ p, ?_⟩, ?_⟩ <;>
          simp [scan_modules, hp, h]
      · cases hr : fs.rootExists
        · refine ⟨⟨"Unity project path not set or does not exist: " ++ p, ?_⟩, ?_⟩ <;>
            simp [scan_modules, hp, hr]
        · refine ⟨⟨"Assets folder not found in Unity project: " ++ p ++ "/Assets",
            ?_⟩, ?_⟩ <;> simp [scan_modules, hp, hr, h]

/-- C4 witness: scanning with no configured project path raises the
registry error and leaves the state unchanged. -/
theorem C4_witness :
    (∃ msg, (scan_modules ⟨none, [], none⟩ ⟨true, true, []⟩ 0).1 =
      .error (.registryError msg)) ∧
      (scan_modules ⟨none, [], none⟩ ⟨true, true, []⟩ 0).2 = ⟨none, [], none⟩ :=
  C4_scan_preconditions ⟨none, [], none⟩ ⟨true, true, []⟩ 0 (Or.inl rfl)

/-- C3: a module folder whose descriptor file exists but fails to
read/parse still yields the default record with `has_yaml = true`, name
equal to the folder name, the classified type, empty dependencies and all
optional fields unset; and the per-folder loop continues with the
remaining folders. -/
theorem C3_malformed_descriptor (folder : ModuleFolderFS)
    (module_type tfName : String) (rest : List ModuleFolderFS)
    (hdesc : folder.descriptor = some (.error ()))
    (hdir : folder.isDir = true)
    (hname : (pyStartsWith folder.name "." || pyStartsWith folder.name "~") = false) :
    scan_single_module folder module_type tfName =
      .ok (encodeModule ⟨folder.name, module_type,
        "Assets/" ++ tfName ++ "/" ++ folder.name, true, none, none, [], none⟩) ∧
    scanChildren module_type tfName (folder :: rest) =
      (scanChildren module_type tfName rest).map
        (fun ms => encodeModule ⟨folder.name, module_type,
          "Assets/" ++ tfName ++ "/" ++ folder.name, true, none, none, [], none⟩ :: ms) := by
  have h1 : scan_single_module folder module_type tfName =
      .ok (encodeModule ⟨folder.name, module_type,
        "Assets/" ++ tfName ++ "/" ++ folder.name, true, none, none, [], none⟩) := by
    simp [scan_single_module, hdesc, encodeModule, optStrV]
  refine ⟨h1, ?_⟩
  cases hrest : scanChildren module_type tfName rest with
  | error e => simp [scanChildren, hdir, hname, h1, hrest, Except.map]
  | ok ms => simp [scanChildren, hdir, hname, h1, hrest, Except.map]

/-- C3 witness: a concrete malformed-descriptor folder produces the
default record and the loop proceeds past it. -/
theorem C3_witness :
    scan_single_module ⟨"Mod", true, some (.error ())⟩ "feature" "Features" =
      .ok (encodeModule ⟨"Mod", "feature", "Assets/Features/Mod", true,
        none, none, [], none⟩) ∧
    scanChildren "feature" "Features" [⟨"Mod", true, some (.error ())⟩] =
      (scanChildren "feature" "Features" []).map
        (fun ms => encodeModule ⟨"Mod", "feature", "Assets/Features/Mod", true,
          none, none, [], none⟩ :: ms) :=
  C3_malformed_descriptor ⟨"Mod", true, some (.error ())⟩ "feature" "Features" []
    rfl rfl (by decide)

end UnityRegistry

